import Mathlib

/-
Shallow embedding of counter.c, a frequency counter for an AVR
microcontroller.  Timer/Counter 1 counts input pulses (hardware register
TCNT1, 16 bits, software overflow tally freqCounter, an unsigned char).
Timer/Counter 2 is clocked from the 1024 prescaler tap and produces the
one-second gate (hardware register TCNT2, 8 bits, software roll-over
countdown secTimer, an unsigned char).  Two flag bits, dataReady and
lastSec, coordinate the interrupt handlers with the polling main loop.
-/

/-- Machine state: the two flag bits of the flags byte, the two software
tallies, and every hardware timer register the program touches.  Registers
are Nats kept in range by explicit mod arithmetic. -/
structure MachState where
  dataReady : Bool
  lastSec : Bool
  secTimer : Nat
  freqCounter : Nat
  tcnt0 : Nat
  tcnt1 : Nat
  tcnt2 : Nat
  tccr1b : Nat
  tccr2b : Nat
deriving DecidableEq

/-- counter.c line 85: `#define ONE_SEC_GATE (10000000UL / 512 / 256)`,
the number of full Timer 2 roll-overs in one second (= 76). -/
def ONE_SEC_GATE : Nat := 10000000 / 512 / 256

/-- counter.c line 86: `#define LAST_SEC (256 - 29 * 256 / 100)`, the value
forced into a timer register for the last portion of the gate (= 182). -/
def LAST_SEC : Nat := 256 - 29 * 256 / 100

/-- `timer1Off()`: TCCR1B = 0. -/
def timer1Off (s : MachState) : MachState := { s with tccr1b := 0 }

/-- `timer2Off()`: TCCR2B = 0. -/
def timer2Off (s : MachState) : MachState := { s with tccr2b := 0 }

/-- `timer1On()`: TCCR1B = 0b00000110 (T1 pin, falling edge). -/
def timer1On (s : MachState) : MachState := { s with tccr1b := 6 }

/-- `timer2On()`: TCCR2B = 0b00000111 (1024 pre-scale tap). -/
def timer2On (s : MachState) : MachState := { s with tccr2b := 7 }

/-- `t1_init()`: TCCR1B = 0, TCNT1 = 0 (interrupt plumbing not modelled). -/
def t1_init (s : MachState) : MachState := { s with tccr1b := 0, tcnt1 := 0 }

/-- `t2_init()`: TCCR2B = 0, TCNT2 = 0 (interrupt plumbing not modelled). -/
def t2_init (s : MachState) : MachState := { s with tccr2b := 0, tcnt2 := 0 }

/-- `getTimer1()`: returns TCNT1 through a signed 16-bit `int`. -/
def getTimer1 (tcnt1 : Nat) : Int :=
  if tcnt1 < 32768 then (tcnt1 : Int) else (tcnt1 : Int) - 65536

/-- `ISR(TIMER1_OVF_vect)`: `freqCounter++` on an unsigned char. -/
def isr1 (s : MachState) : MachState :=
  { s with freqCounter := (s.freqCounter + 1) % 256 }

/-- First two statements of the lastSec branch of `ISR(TIMER2_OVF_vect)`:
`timer1Off(); timer2Off();`. -/
def isr2Stop (s : MachState) : MachState := timer2Off (timer1Off s)

/-- `flags.dataReady = 1;`. -/
def setDataReady (s : MachState) : MachState := { s with dataReady := true }

/-- `flags.lastSec = 0;`. -/
def clearLastSec (s : MachState) : MachState := { s with lastSec := false }

/-- `ISR(TIMER2_OVF_vect)`: if lastSec is set, stop both timers, set
dataReady, clear lastSec.  Otherwise decrement secTimer (unsigned char);
when it hits zero write LAST_SEC into TCNT0 (sic: Timer 0's register, as
the source does) and set lastSec. -/
def isr2 (s : MachState) : MachState :=
  if s.lastSec then
    clearLastSec (setDataReady (isr2Stop s))
  else
    let s1 := { s with secTimer := (s.secTimer + 255) % 256 }
    if s1.secTimer = 0 then { s1 with tcnt0 := LAST_SEC, lastSec := true } else s1

/-- Lines 218-219 of main: `frequency = (unsigned long)freqCounter * 65536UL;
frequency += (unsigned long)getTimer1();` in 32-bit unsigned arithmetic. -/
def computeFrequency (fc tcnt1 : Nat) : Nat :=
  (fc * 65536 % 4294967296 + (getTimer1 tcnt1 % 4294967296).toNat) % 4294967296

/-- `ltoa(frequency, tempStr, 10)`: the unsigned long is converted to a
signed 32-bit long and rendered in decimal. -/
def ltoa10 (v : Nat) : String :=
  if v < 2147483648 then toString v else "-" ++ toString (4294967296 - v)

/-- Lines 227-232 of main: `secTimer = ONE_SEC_GATE; freqCounter = 0;
t2_init(); t1_init(); timer2On(); timer1On();`. -/
def restart (s : MachState) : MachState :=
  timer1On (timer2On (t1_init (t2_init
    { s with secTimer := ONE_SEC_GATE, freqCounter := 0 })))

/-- One iteration of the main polling loop (lines 212-234): when dataReady
is observed set, clear it, combine the counts, render the string for the
LCD (returned as the second component) and restart; otherwise do nothing. -/
def mainStep (s : MachState) : MachState × Option String :=
  if s.dataReady then
    (restart { s with dataReady := false },
     some (ltoa10 (computeFrequency s.freqCounter s.tcnt1)))
  else (s, none)

/-- State after main's startup sequence (lines 193-205): registers at their
reset values, then the same initialisation the restart path performs. -/
def initState : MachState :=
  timer1On (timer2On (t1_init (t2_init
    { dataReady := false, lastSec := false, secTimer := ONE_SEC_GATE,
      freqCounter := 0, tcnt0 := 0, tcnt1 := 0, tcnt2 := 0,
      tccr1b := 0, tccr2b := 0 })))

/-- Events that can mutate the shared state: a Timer 1 overflow, a Timer 2
overflow, or one main-loop poll. -/
inductive Ev
  | t1ovf
  | t2ovf
  | poll

/-- Guarded small-step semantics: an overflow interrupt can only fire while
its timer is running (its TCCR register nonzero). -/
def stepEv : Ev → MachState → MachState
  | Ev.t1ovf, s => if s.tccr1b = 0 then s else isr1 s
  | Ev.t2ovf, s => if s.tccr2b = 0 then s else isr2 s
  | Ev.poll, s => (mainStep s).1

/-- Run a sequence of events. -/
def run : List Ev → MachState → MachState
  | [], s => s
  | e :: es, s => run es (stepEv e s)

/-- Inductive invariant: whenever dataReady is set, lastSec is clear and
Timer 2 is stopped. -/
def FlagInv (s : MachState) : Prop :=
  s.dataReady = true → (s.lastSec = false ∧ s.tccr2b = 0)

/-- One Timer 2 overflow event at tick granularity: starting from register
value TCNT2 the overflow fires after 256 - TCNT2 internal-clock ticks, the
register wraps to 0, and the handler runs. -/
def tcc2Overflow (s : MachState) : Nat × MachState :=
  (256 - s.tcnt2, isr2 { s with tcnt2 := 0 })

/-- Accumulate Timer 2 ticks from gate start until the handler stops
Timer 2 (fuel-bounded). -/
def gateTicksAux : Nat → MachState → Nat → Option Nat
  | 0, _, _ => none
  | fuel + 1, s, acc =>
      if s.tccr2b = 0 then some acc
      else gateTicksAux fuel (tcc2Overflow s).2 (acc + (tcc2Overflow s).1)

/-- Total internal-clock ticks from gate start to gate close. -/
def gateTicks : Option Nat := gateTicksAux 100 initState 0

/-- The state just before the final decrement of secTimer. -/
def c1State : MachState := { initState with secTimer := 1 }

theorem flagInv_initState : FlagInv initState := by
  intro h
  simp [initState, t1_init, t2_init, timer1On, timer2On] at h

theorem flagInv_stepEv (e : Ev) (s : MachState) (h : FlagInv s) : FlagInv (stepEv e s) := by
  cases e
  · by_cases h1 : s.tccr1b = 0
    · simpa [stepEv, h1] using h
    · intro hd
      simp only [stepEv, if_neg h1, isr1] at hd ⊢
      exact h hd
  · by_cases h2 : s.tccr2b = 0
    · simpa [stepEv, h2] using h
    · intro hd
      have hdr : s.dataReady = false := by
        cases hdr : s.dataReady
        · rfl
        · exact absurd (h hdr).2 h2
      simp only [stepEv, if_neg h2, isr2] at hd ⊢
      cases hls : s.lastSec
      · simp only [hls, Bool.false_eq_true, if_false] at hd ⊢
        split at hd <;> simp_all
      · simp [hls, clearLastSec, setDataReady, isr2Stop, timer1Off, timer2Off]
  · intro hd
    simp only [stepEv, mainStep] at hd ⊢
    by_cases hb : s.dataReady = true
    · simp only [hb, if_true] at hd ⊢
      simp [restart, t1_init, t2_init, timer1On, timer2On] at hd
    · simp only [hb, if_false] at hd ⊢
      exact h hd

theorem flagInv_run (tr : List Ev) (s : MachState) (h : FlagInv s) : FlagInv (run tr s) := by
  induction tr generalizing s with
  | nil => exact h
  | cons e es ih => exact ih (stepEv e s) (flagInv_stepEv e s h)

/-- C1: the claim says that when secTimer reaches zero the Gate Timer's own
hardware register is reloaded with LAST_SEC.  The handler does decrement
secTimer and set lastSec, but the reload is written to TCNT0, Timer 0's
register, while the Gate Timer's register TCNT2 is left unchanged, so the
final roll-over is not shortened. -/
theorem C1_reload_goes_to_tcnt0 :
    (isr2 c1State).secTimer = 0 ∧ (isr2 c1State).lastSec = true ∧
    (isr2 c1State).tcnt0 = LAST_SEC ∧ (isr2 c1State).tcnt2 = c1State.tcnt2 ∧
    c1State.tcnt0 = 0 ∧ LAST_SEC = 182 := by decide

/-- C2: the claim says the computed frequency always equals
freqCounter × 65536 plus the frozen Timer 1 register.  At freqCounter = 0
and TCNT1 = 32768 the signed return of getTimer1 sign-extends and the code
computes 4294934528, not 32768. -/
theorem C2_sign_extended_combination :
    computeFrequency 0 32768 = 4294934528 ∧
    0 * 65536 + 32768 = 32768 ∧ 32768 < 4294934528 := by decide

/-- C3: dataReady is set only after both timers are stopped.  The final
branch of the Timer 2 handler is exactly clearLastSec after setDataReady
after isr2Stop; isr2Stop zeroes both TCCR registers while dataReady still
holds its old value, and only the subsequent setDataReady raises the flag.
The non-final branch, the Timer 1 handler, and the main loop never raise
dataReady. -/
theorem C3_ready_only_after_stop :
    ∀ s : MachState,
      ((isr2Stop s).tccr1b = 0 ∧ (isr2Stop s).tccr2b = 0 ∧
        (isr2Stop s).dataReady = s.dataReady) ∧
      isr2 { s with lastSec := true } =
        clearLastSec (setDataReady (isr2Stop { s with lastSec := true })) ∧
      (setDataReady (isr2Stop s)).dataReady = true ∧
      (isr2 { s with lastSec := false }).dataReady = s.dataReady ∧
      (isr1 s).dataReady = s.dataReady ∧
      (mainStep s).1.dataReady = false := by
  intro s
  refine ⟨⟨rfl, rfl, rfl⟩, rfl, rfl, ?_, rfl, ?_⟩
  · simp only [isr2]
    split
    · simp_all
    · split <;> rfl
  · simp only [mainStep]
    split
    · rfl
    · simp_all

/-- C4 counterexample: the claim says the gate spans one second (19531.25
internal-clock ticks, i.e. 78125 quarter-ticks) to within one tick
(4 quarter-ticks).  Simulating the gate from initState, Timer 2 is stopped
19712 ticks after gate start, and 4 × 19712 = 78848 exceeds 78125 + 4. -/
theorem C4_gate_not_within_one_tick :
    gateTicks = some 19712 ∧ 78125 + 4 < 4 * 19712 := by decide

set_option maxRecDepth 10000 in
/-- C4 amended: the gate closes 19712 ticks after gate start: 77 full
256-tick roll-overs, because the LAST_SEC reload lands in TCNT0 and never
shortens the final roll-over of TCNT2.  This exceeds one second
(78125 quarter-ticks) by 723 quarter-ticks, i.e. 180.75 tick periods. -/
theorem C4_gate_total_ticks :
    gateTicks = some 19712 ∧ 19712 = 77 * 256 ∧
    4 * 19712 = 78125 + 723 := by decide

/-- C5: after processing a ready result, the main loop clears dataReady,
zeroes freqCounter, TCNT1 and TCNT2, reloads secTimer with ONE_SEC_GATE and
turns both timers back on, leaving every one of those fields equal to its
value in initState, so the next cycle starts as the first did. -/
theorem C5_restart_matches_init (s : MachState) (h : s.dataReady = true) :
    (mainStep s).1.dataReady = initState.dataReady ∧
    (mainStep s).1.freqCounter = initState.freqCounter ∧
    (mainStep s).1.tcnt1 = initState.tcnt1 ∧
    (mainStep s).1.tcnt2 = initState.tcnt2 ∧
    (mainStep s).1.secTimer = ONE_SEC_GATE ∧
    (mainStep s).1.tccr1b = initState.tccr1b ∧
    (mainStep s).1.tccr2b = initState.tccr2b ∧
    (mainStep s).2 = some (ltoa10 (computeFrequency s.freqCounter s.tcnt1)) := by
  simp [mainStep, h, restart, t1_init, t2_init, timer1On, timer2On, initState]

/-- Witness for C5 at the concrete ready state. -/
theorem C5_restart_matches_init_witness :
    (mainStep { initState with dataReady := true }).1.dataReady = initState.dataReady ∧
    (mainStep { initState with dataReady := true }).1.freqCounter = initState.freqCounter ∧
    (mainStep { initState with dataReady := true }).1.tcnt1 = initState.tcnt1 ∧
    (mainStep { initState with dataReady := true }).1.tcnt2 = initState.tcnt2 ∧
    (mainStep { initState with dataReady := true }).1.secTimer = ONE_SEC_GATE ∧
    (mainStep { initState with dataReady := true }).1.tccr1b = initState.tccr1b ∧
    (mainStep { initState with dataReady := true }).1.tccr2b = initState.tccr2b ∧
    (mainStep { initState with dataReady := true }).2 =
      some (ltoa10 (computeFrequency
        ({ initState with dataReady := true } : MachState).freqCounter
        ({ initState with dataReady := true } : MachState).tcnt1)) :=
  C5_restart_matches_init { initState with dataReady := true } rfl

/-- C6: with no input pulses during the gate (freqCounter and TCNT1 both
zero at gate close) the computed frequency is 0 and the string handed to
the display is "0". -/
theorem C6_zero_input_reports_zero (s : MachState) (h1 : s.dataReady = true)
    (h2 : s.freqCounter = 0) (h3 : s.tcnt1 = 0) :
    computeFrequency s.freqCounter s.tcnt1 = 0 ∧ (mainStep s).2 = some "0" := by
  rw [h2, h3]
  refine ⟨by decide, ?_⟩
  simp only [mainStep, h1, if_true, h2, h3]
  rfl

/-- Witness for C6 at the concrete zero-count ready state. -/
theorem C6_zero_input_reports_zero_witness :
    computeFrequency ({ initState with dataReady := true } : MachState).freqCounter
      ({ initState with dataReady := true } : MachState).tcnt1 = 0 ∧
    (mainStep { initState with dataReady := true }).2 = some "0" :=
  C6_zero_input_reports_zero { initState with dataReady := true } rfl rfl rfl

set_option maxRecDepth 10000 in
/-- C7 counterexample: the claim says the software tally wraps to 0 only
after 2^16 - 1 hardware overflows.  freqCounter is an unsigned char: 256
overflow interrupts from initState already bring it back to 0, and
256 < 2^16 - 1. -/
theorem C7_tally_wraps_at_256 :
    (isr1^[256] initState).freqCounter = 0 ∧ 256 + 1 < 2 ^ 16 - 1 := by decide

/-- C7 amended: the 8-bit software tally wraps modulo 2^8, so it returns
to 0 after 2^8 hardware overflows, and every combined count below
2^8 × 2^16 = 2^24 whose hardware-register part is below 2^15 is reported
correctly; counts beyond wrap. -/
theorem C7_tally_wrap_boundary :
    (∀ (n : Nat) (s : MachState), s.freqCounter < 256 →
      (isr1^[n] s).freqCounter = (s.freqCounter + n) % 256) ∧
    (∀ c : Nat, c < 16777216 → c % 65536 < 32768 →
      computeFrequency (c / 65536) (c % 65536) = c) := by
  constructor
  · intro n s hs
    induction n with
    | zero => simpa using (Nat.mod_eq_of_lt hs).symm
    | succ n ih =>
        rw [Function.iterate_succ_apply']
        simp only [isr1]
        omega
  · intro c h1 h2
    simp only [computeFrequency, getTimer1, if_pos h2]
    omega

/-- Witness for C7 at 300 overflows from initState and the count 70000. -/
theorem C7_tally_wrap_boundary_witness :
    (isr1^[300] initState).freqCounter = (initState.freqCounter + 300) % 256 ∧
    computeFrequency (70000 / 65536) (70000 % 65536) = 70000 :=
  ⟨C7_tally_wrap_boundary.1 300 initState (by decide),
   C7_tally_wrap_boundary.2 70000 (by decide) (by decide)⟩

/-- C8: because getTimer1 returns TCNT1 through a signed 16-bit int, the
combined value equals freqCounter × 65536 + TCNT1 exactly when
TCNT1 < 2^15; for TCNT1 ≥ 2^15 the sign extension makes the computed
frequency differ from the true combined count. -/
theorem C8_combination_needs_small_tcnt1 (fc t : Nat) (hfc : fc < 256)
    (ht : t < 65536) :
    (t < 32768 → computeFrequency fc t = fc * 65536 + t) ∧
    (32768 ≤ t → computeFrequency fc t ≠ fc * 65536 + t) := by
  constructor
  · intro hlt
    simp only [computeFrequency, getTimer1, if_pos hlt]
    omega
  · intro hge
    have hn : ¬ t < 32768 := by omega
    simp only [computeFrequency, getTimer1, if_neg hn]
    omega

/-- Witness for C8 on both sides of the 2^15 boundary. -/
theorem C8_combination_needs_small_tcnt1_witness :
    computeFrequency 1 5 = 1 * 65536 + 5 ∧
    computeFrequency 1 40000 ≠ 1 * 65536 + 40000 :=
  ⟨(C8_combination_needs_small_tcnt1 1 5 (by decide) (by decide)).1 (by decide),
   (C8_combination_needs_small_tcnt1 1 40000 (by decide) (by decide)).2 (by decide)⟩

/-- C9: in every reachable state, dataReady and lastSec are never both set,
in particular after every execution of the Timer 2 handler; the final
branch raises dataReady and clears lastSec in the same invocation, and the
non-final branch leaves dataReady untouched. -/
theorem C9_flags_never_both_set :
    (∀ tr : List Ev,
      ((run tr initState).dataReady && (run tr initState).lastSec) = false) ∧
    (∀ s : MachState,
      (isr2 { s with lastSec := true }).dataReady = true ∧
      (isr2 { s with lastSec := true }).lastSec = false ∧
      (isr2 { s with lastSec := false }).dataReady = s.dataReady) := by
  constructor
  · intro tr
    have h := flagInv_run tr initState flagInv_initState
    cases hdr : (run tr initState).dataReady
    · rfl
    · simp [(h hdr).1]
  · intro s
    refine ⟨rfl, rfl, ?_⟩
    simp only [isr2]
    split
    · simp_all
    · split <;> rfl

/-- C10: a main-loop iteration that observes dataReady clear changes
nothing at all: the state is returned untouched and nothing is sent to the
display. -/
theorem C10_idle_iteration_is_identity (s : MachState)
    (h : s.dataReady = false) : mainStep s = (s, none) := by
  simp [mainStep, h]

/-- Witness for C10 at initState, where dataReady is clear. -/
theorem C10_idle_iteration_is_identity_witness :
    mainStep initState = (initState, none) :=
  C10_idle_iteration_is_identity initState rfl
